import Mathlib

/-!
Shallow embedding of `src/aws/provision-eks-cluster/index.ts` from the
repository `madhank93/learn-pulumi`.

The script is a linear Pulumi program: it reads five configuration values
(with `||`-style defaulting), declares a VPC, six subnets, two IAM roles,
role-policy attachments, an EKS cluster and a worker node group, builds a
kubeconfig document from three deferred cluster attributes, and exports
four values.

Modelling choices:
* `pulumi.Config.getNumber/get` return `Option`; JavaScript `x || d`
  replaces any falsy value (absent, `0`, the empty string) by the default.
  Numbers are modelled as `Int` (the script only ever treats them as
  integers; `0` is the only falsy numeric value relevant here).
* A resource's deferred attribute (`.id`, `.arn`, `.name`, …) is modelled
  symbolically as `Ref.output resourceName attrName`: the script never
  inspects these values, it only wires them.
* JavaScript `/` on numbers is real (non-truncating) division; for the
  small natural indices the script uses, binary64 division by 2 is exact,
  so it is modelled faithfully with rational division `(index : ℚ) / 2`.
* `pulumi.all(...).apply(f)` applies the pure function `f` once the three
  attributes resolve; the document builder is modelled as that pure
  function of the three resolved strings.
-/

/-- The raw Pulumi configuration: each `config.getNumber` / `config.get`
key is present (`some`) or absent (`none`). -/
structure PulumiConfig where
  minClusterSize : Option Int
  maxClusterSize : Option Int
  desiredClusterSize : Option Int
  eksNodeInstanceType : Option String
  vpcNetworkCidr : Option String
deriving DecidableEq, Repr

/-- JavaScript `v || d` for an optional number: absent or falsy (`0`)
yields the default. -/
def numOr (v : Option Int) (d : Int) : Int :=
  match v with
  | none => d
  | some n => if n = 0 then d else n

/-- JavaScript `v || d` for an optional string: absent or falsy (`""`)
yields the default. -/
def strOr (v : Option String) (d : String) : String :=
  match v with
  | none => d
  | some s => if s = "" then d else s

/-- `const minClusterSize = config.getNumber('minClusterSize') || 3`. -/
def minClusterSize (config : PulumiConfig) : Int :=
  numOr config.minClusterSize 3

/-- `const maxClusterSize = config.getNumber('maxClusterSize') || 6`. -/
def maxClusterSize (config : PulumiConfig) : Int :=
  numOr config.maxClusterSize 6

/-- `const desiredClusterSize = config.getNumber('desiredClusterSize') || 3`. -/
def desiredClusterSize (config : PulumiConfig) : Int :=
  numOr config.desiredClusterSize 3

/-- `const eksNodeInstanceType = config.get('eksNodeInstanceType') || 't3.medium'`. -/
def eksNodeInstanceType (config : PulumiConfig) : String :=
  strOr config.eksNodeInstanceType "t3.medium"

/-- `const vpcNetworkCidr = config.get('vpcNetworkCidr') || '10.0.0.0/16'`. -/
def vpcNetworkCidr (config : PulumiConfig) : String :=
  strOr config.vpcNetworkCidr "10.0.0.0/16"

/-- A deferred resource attribute (a Pulumi `Output`), identified by the
declaring resource's logical name and the attribute's name. -/
inductive Ref where
  | output (resource : String) (attr : String)
deriving DecidableEq, Repr

/-- Arguments of the `aws.ec2.Vpc('eks-vpc', ...)` declaration. -/
structure VpcArgs where
  name : String
  tagName : String
  cidrBlock : String
deriving DecidableEq, Repr

/-- `const eksVpc = new aws.ec2.Vpc('eks-vpc', { tags: { name: 'my-eks-vpc' }, cidrBlock: vpcNetworkCidr })`. -/
def eksVpc (config : PulumiConfig) : VpcArgs :=
  { name := "eks-vpc", tagName := "my-eks-vpc", cidrBlock := vpcNetworkCidr config }

/-- `const privateSubnetCidrBlock = ['10.0.1.0/24', '10.0.2.0/24', '10.0.3.0/24']`. -/
def privateSubnetCidrBlock : List String :=
  ["10.0.1.0/24", "10.0.2.0/24", "10.0.3.0/24"]

/-- `const publicSubnetCidrBlock = ['10.0.101.0/24', '10.0.102.0/24', '10.0.103.0/24']`. -/
def publicSubnetCidrBlock : List String :=
  ["10.0.101.0/24", "10.0.102.0/24", "10.0.103.0/24"]

/-- Arguments of an `aws.ec2.Subnet` declaration. -/
structure SubnetArgs where
  name : String
  vpcId : Ref
  cidrBlock : String
  mapPublicIpOnLaunch : Bool
  availabilityZone : String
  tagName : String
deriving DecidableEq, Repr

/-- The helper `createSubnetAndGetID(cidrRange, index, isPublic)`:
declares the subnet.  The availability-zone selector is the source's
`index / 2 == 0 ? 'us-west-2a' : 'us-west-2b'`, where `/` is JavaScript
real division, modelled exactly by rational division. -/
def createSubnetAndGetID (cidrRange : String) (index : ℕ) ( isPublic : Bool) :
    SubnetArgs :=
  { name := (if isPublic then "public" else "private") ++ "-subnet-" ++ toString index
  , vpcId := Ref.output "eks-vpc" "id"
  , cidrBlock := cidrRange
  , mapPublicIpOnLaunch := isPublic
  , availabilityZone := if (index : ℚ) / 2 = 0 then "us-west-2a" else "us-west-2b"
  , tagName := "my-eks-subnets" }

/-- The subnet resources declared by
`privateSubnetCidrBlock.map((subnet, index) => createSubnetAndGetID(subnet, index, false))`. -/
def privateSubnets : List SubnetArgs :=
  privateSubnetCidrBlock.enum.map (fun p => createSubnetAndGetID p.2 p.1 false)

/-- The subnet resources declared by
`publicSubnetCidrBlock.map((subnet, index) => createSubnetAndGetID(subnet, index, true))`. -/
def publicSubnets : List SubnetArgs :=
  publicSubnetCidrBlock.enum.map (fun p => createSubnetAndGetID p.2 p.1 true)

/-- The `.id` output returned by `createSubnetAndGetID`. -/
def subnetId (s : SubnetArgs) : Ref :=
  Ref.output s.name "id"

/-- `const privateSubnet = ...` — the list of private subnet ids. -/
def privateSubnet : List Ref :=
  privateSubnets.map subnetId

/-- `const publicSubnet = ...` — the list of public subnet ids. -/
def publicSubnet : List Ref :=
  publicSubnets.map subnetId

/-- Real (JavaScript) division of a natural index by 2 is zero exactly at
index 0: the characterization of the script's availability-zone test. -/
lemma cast_div_two_eq_zero_iff (i : ℕ) : ((i : ℚ) / 2 = 0) ↔ i = 0 := by
  rw [div_eq_zero_iff]
  norm_num

/-- Closed form of the availability zone chosen by `createSubnetAndGetID`. -/
lemma availabilityZone_eq (c : String) (i : ℕ) (p : Bool) :
    (createSubnetAndGetID c i p).availabilityZone =
      if i = 0 then "us-west-2a" else "us-west-2b" := by
  simp only [createSubnetAndGetID]
  by_cases h : i = 0
  · subst h
    norm_num
  · rw [if_neg, if_neg h]
    rw [cast_div_two_eq_zero_iff]
    exact h


/-- Arguments of an `aws.iam.Role` declaration; the assume-role policy is
recorded by the single service principal it allows to assume the role. -/
structure RoleArgs where
  name : String
  assumeRoleService : String
deriving DecidableEq, Repr

/-- `const eksClusterRole = new aws.iam.Role('eks-cluster-role', ...)`,
whose assume-role policy allows `eks.amazonaws.com`. -/
def eksClusterRole : RoleArgs :=
  { name := "eks-cluster-role", assumeRoleService := "eks.amazonaws.com" }

/-- `const workerNodeRole = new aws.iam.Role('worker-node-role', ...)`,
whose assume-role policy allows `ec2.amazonaws.com`. -/
def workerNodeRole : RoleArgs :=
  { name := "worker-node-role", assumeRoleService := "ec2.amazonaws.com" }

/-- Arguments of an `aws.iam.RolePolicyAttachment` declaration. -/
structure RolePolicyAttachmentArgs where
  name : String
  role : Ref
  policyArn : String
deriving DecidableEq, Repr

/-- `new aws.iam.RolePolicyAttachment('cluster-role-policy-attachment', ...)`. -/
def clusterRolePolicyAttachment : RolePolicyAttachmentArgs :=
  { name := "cluster-role-policy-attachment"
  , role := Ref.output eksClusterRole.name "name"
  , policyArn := "arn:aws:iam::aws:policy/AmazonEKSClusterPolicy" }

/-- `new aws.iam.RolePolicyAttachment('worker-node-policy-attachment', ...)`. -/
def workerNodePolicyAttachment : RolePolicyAttachmentArgs :=
  { name := "worker-node-policy-attachment"
  , role := Ref.output workerNodeRole.name "name"
  , policyArn := "arn:aws:iam::aws:policy/AmazonEKSWorkerNodePolicy" }

/-- `new aws.iam.RolePolicyAttachment('cni-policy-attachment', ...)`. -/
def cniPolicyAttachment : RolePolicyAttachmentArgs :=
  { name := "cni-policy-attachment"
  , role := Ref.output workerNodeRole.name "name"
  , policyArn := "arn:aws:iam::aws:policy/AmazonEKS_CNI_Policy" }

/-- `new aws.iam.RolePolicyAttachment('container-registry-policy-attachment', ...)`. -/
def containerRegistryPolicyAttachment : RolePolicyAttachmentArgs :=
  { name := "container-registry-policy-attachment"
  , role := Ref.output workerNodeRole.name "name"
  , policyArn := "arn:aws:iam::aws:policy/AmazonEC2ContainerRegistryReadOnly" }

/-- Arguments of the `aws.eks.Cluster` declaration. -/
structure ClusterArgs where
  name : String
  roleArn : Ref
  subnetIds : List Ref
  version : String
  tagName : String
deriving DecidableEq, Repr

/-- `const eksCluster = new aws.eks.Cluster('eks-cluster', ...)` with
`vpcConfig.subnetIds: [...privateSubnet, ...publicSubnet]`. -/
def eksCluster : ClusterArgs :=
  { name := "eks-cluster"
  , roleArn := Ref.output eksClusterRole.name "arn"
  , subnetIds := privateSubnet ++ publicSubnet
  , version := "1.27"
  , tagName := "my-eks-cluster" }

/-- The `scalingConfig` of the node group, with fields in source order. -/
structure ScalingConfig where
  desiredSize : Int
  maxSize : Int
  minSize : Int
deriving DecidableEq, Repr

/-- Arguments of the `aws.eks.NodeGroup` declaration. -/
structure NodeGroupArgs where
  name : String
  clusterName : Ref
  nodeRoleArn : Ref
  subnetIds : List Ref
  scalingConfig : ScalingConfig
  instanceTypes : List String
deriving DecidableEq, Repr

/-- `new aws.eks.NodeGroup('worker-node-group', ...)`: passes the three
sizing constants straight into `scalingConfig`. -/
def workerNodeGroup (config : PulumiConfig) : NodeGroupArgs :=
  { name := "worker-node-group"
  , clusterName := Ref.output eksCluster.name "name"
  , nodeRoleArn := Ref.output workerNodeRole.name "arn"
  , subnetIds := privateSubnet ++ publicSubnet
  , scalingConfig :=
      { desiredSize := desiredClusterSize config
      , maxSize := maxClusterSize config
      , minSize := minClusterSize config }
  , instanceTypes := [eksNodeInstanceType config] }

/-- A cluster entry of the generated kubeconfig document
(`clusters[i].cluster.server`, `.'certificate-authority-data'`, `.name`). -/
structure KubeClusterEntry where
  server : String
  certificateAuthorityData : String
  name : String
deriving DecidableEq, Repr

/-- A context entry of the generated kubeconfig document. -/
structure KubeContextEntry where
  cluster : String
  user : String
  name : String
deriving DecidableEq, Repr

/-- The `exec` block of a kubeconfig user entry. -/
structure KubeExec where
  apiVersion : String
  command : String
  args : List String
deriving DecidableEq, Repr

/-- A user entry of the generated kubeconfig document. -/
structure KubeUserEntry where
  name : String
  exec : KubeExec
deriving DecidableEq, Repr

/-- The kubeconfig document (`current-context` is the hyphenated key). -/
structure Kubeconfig where
  apiVersion : String
  clusters : List KubeClusterEntry
  contexts : List KubeContextEntry
  currentContext : String
  kind : String
  users : List KubeUserEntry
deriving DecidableEq, Repr

/-- The pure function inside
`pulumi.all([name, endpoint, certificateAuthority]).apply(...)`: builds the
kubeconfig document from the three resolved cluster attributes. -/
def generateKubeconfig (clusterName clusterEndpoint clusterCAData : String) :
    Kubeconfig :=
  { apiVersion := "v1"
  , clusters :=
      [ { server := clusterEndpoint
        , certificateAuthorityData := clusterCAData
        , name := "kubernetes" } ]
  , contexts := [ { cluster := "kubernetes", user := "aws", name := "aws" } ]
  , currentContext := "aws"
  , kind := "Config"
  , users :=
      [ { name := "aws"
        , exec :=
            { apiVersion := "client.authentication.k8s.io/v1alpha1"
            , command := "aws"
            , args := ["eks", "get-token", "--cluster-name", clusterName] } } ] }

/-- The four `export const` declarations of the module.  The kubeconfig
export is the deferred document: the builder applied to the cluster's
name, endpoint and certificate-authority data once they resolve. -/
structure ModuleExports where
  clusterName : Ref
  clusterArn : Ref
  clusterKubeConfig : String → String → String → Kubeconfig
  vpcId : Ref

/-- `export const clusterName / clusterArn / clusterKubeConfig / vpcId`. -/
def moduleExports : ModuleExports :=
  { clusterName := Ref.output eksCluster.name "name"
  , clusterArn := Ref.output eksCluster.name "arn"
  , clusterKubeConfig := generateKubeconfig
  , vpcId := Ref.output "eks-vpc" "id" }

/-- The export names, in source order (lines 172-175). -/
def exportNames : List String :=
  ["clusterName", "clusterArn", "clusterKubeConfig", "vpcId"]

/-- One declared cloud resource. -/
inductive Resource where
  | vpc (args : VpcArgs)
  | subnet (args : SubnetArgs)
  | iamRole (args : RoleArgs)
  | rolePolicyAttachment (args : RolePolicyAttachmentArgs)
  | eksCluster (args : ClusterArgs)
  | nodeGroup (args : NodeGroupArgs)
deriving DecidableEq, Repr

/-- All resources the script declares, in the order the statements run. -/
def resources (config : PulumiConfig) : List Resource :=
  [Resource.vpc (eksVpc config)]
    ++ privateSubnets.map Resource.subnet
    ++ publicSubnets.map Resource.subnet
    ++ [ Resource.iamRole eksClusterRole
       , Resource.rolePolicyAttachment clusterRolePolicyAttachment
       , Resource.eksCluster eksCluster
       , Resource.iamRole workerNodeRole
       , Resource.rolePolicyAttachment workerNodePolicyAttachment
       , Resource.rolePolicyAttachment cniPolicyAttachment
       , Resource.rolePolicyAttachment containerRegistryPolicyAttachment
       , Resource.nodeGroup (workerNodeGroup config) ]

/-- Test whether a declared resource is a subnet. -/
def Resource.isSubnet : Resource → Bool
  | .subnet _ => true
  | _ => false

/-- Test whether a declared resource is a VPC. -/
def Resource.isVpc : Resource → Bool
  | .vpc _ => true
  | _ => false

/-- Test whether a declared resource is an IAM role. -/
def Resource.isRole : Resource → Bool
  | .iamRole _ => true
  | _ => false

/-- Test whether a declared resource is a role-policy attachment. -/
def Resource.isAttachment : Resource → Bool
  | .rolePolicyAttachment _ => true
  | _ => false

/-- Test whether a declared resource is a managed cluster. -/
def Resource.isCluster : Resource → Bool
  | .eksCluster _ => true
  | _ => false

/-- Test whether a declared resource is a worker node group. -/
def Resource.isNodeGroup : Resource → Bool
  | .nodeGroup _ => true
  | _ => false

/-- Test whether a declared resource is a subnet with the given
`mapPublicIpOnLaunch` flag. -/
def Resource.isSubnetWithPublicIp (b : Bool) : Resource → Bool
  | .subnet a => a.mapPublicIpOnLaunch == b
  | _ => false

/-- The all-keys-absent configuration. -/
def cfgDefault : PulumiConfig :=
  { minClusterSize := none
  , maxClusterSize := none
  , desiredClusterSize := none
  , eksNodeInstanceType := none
  , vpcNetworkCidr := none }


/-- Modelled from the spec: the script stores address ranges only as
string literals and never interprets them ("left to the provider"), so
the standard CIDR semantics the spec appeals to — "a contiguous block of
network addresses expressed as a base address plus prefix length" — is
supplied here: a parsed block. -/
structure Cidr where
  base : ℕ
  plen : ℕ
deriving DecidableEq, Repr

/-- Split a character list at every occurrence of the separator. -/
def splitOnChar (sep : Char) : List Char → List (List Char)
  | [] => [[]]
  | c :: cs =>
      let rest := splitOnChar sep cs
      if c = sep then [] :: rest
      else
        match rest with
        | [] => [[c]]
        | r :: rs => (c :: r) :: rs

/-- Decimal value of a digit character, if it is one. -/
def digitVal (c : Char) : Option ℕ :=
  if c.isDigit then some (c.toNat - 48) else none

/-- Parse a nonempty all-digit character list as a decimal natural. -/
def parseDecimal : List Char → Option ℕ
  | [] => none
  | cs => cs.foldl (fun acc c => do
      let a ← acc
      let d ← digitVal c
      pure (a * 10 + d)) (some 0)

/-- Parse one dotted-quad octet (0..255). -/
def parseOctet (cs : List Char) : Option ℕ := do
  let n ← parseDecimal cs
  if n ≤ 255 then pure n else none

/-- Parse a dotted-quad IPv4 address into its 32-bit numeric value. -/
def parseIPv4 (cs : List Char) : Option ℕ :=
  match splitOnChar '.' cs with
  | [a, b, c, d] => do
      let a ← parseOctet a
      let b ← parseOctet b
      let c ← parseOctet c
      let d ← parseOctet d
      pure (((a * 256 + b) * 256 + c) * 256 + d)
  | _ => none

/-- Parse a CIDR string `a.b.c.d/p` into a block. -/
def parseCidr (s : String) : Option Cidr :=
  match splitOnChar '/' s.data with
  | [ip, p] => do
      let base ← parseIPv4 ip
      let plen ← parseDecimal p
      if plen ≤ 32 then pure { base := base, plen := plen } else none
  | _ => none

/-- Number of addresses in a block. -/
def Cidr.blockSize (c : Cidr) : ℕ :=
  2 ^ (32 - c.plen)

/-- First address of a block (the base, masked to the prefix). -/
def Cidr.first (c : Cidr) : ℕ :=
  c.base - c.base % c.blockSize

/-- One past the last address of a block. -/
def Cidr.last (c : Cidr) : ℕ :=
  c.first + c.blockSize

/-- Two blocks are disjoint when their address intervals do not meet. -/
def Cidr.disjointWith (a b : Cidr) : Bool :=
  a.last ≤ b.first || b.last ≤ a.first

/-- One block is contained in another when its interval is inside. -/
def Cidr.subsetOf (a b : Cidr) : Bool :=
  b.first ≤ a.first && a.last ≤ b.last

/-- Disjointness of the ranges two CIDR strings denote: false unless both
parse. -/
def cidrStringsDisjoint (a b : String) : Bool :=
  match parseCidr a, parseCidr b with
  | some x, some y => x.disjointWith y
  | _, _ => false

/-- Containment of the range one CIDR string denotes in another's: false
unless both parse. -/
def cidrStringSubset (a b : String) : Bool :=
  match parseCidr a, parseCidr b with
  | some x, some y => x.subsetOf y
  | _, _ => false


/-- Test whether a declared resource is a role-policy attachment whose
`role` argument is the `name` output of the given role resource. -/
def Resource.isAttachmentOn (roleRes : String) : Resource → Bool
  | .rolePolicyAttachment a => a.role == Ref.output roleRes "name"
  | _ => false

/-- The configuration that sets `vpcNetworkCidr` to `192.168.0.0/16` and
leaves every other key absent. -/
def cfgOtherVpc : PulumiConfig :=
  { cfgDefault with vpcNetworkCidr := some "192.168.0.0/16" }

/-- The configuration that sets every numeric key to `0` and every string
key to the empty string — all JavaScript-falsy values. -/
def cfgFalsy : PulumiConfig :=
  { minClusterSize := some 0
  , maxClusterSize := some 0
  , desiredClusterSize := some 0
  , eksNodeInstanceType := some ""
  , vpcNetworkCidr := some "" }

/-- The availability zones of the private subnets, in index order: only
index 0 satisfies the real-division test. -/
lemma privateSubnets_az :
    privateSubnets.map SubnetArgs.availabilityZone =
      ["us-west-2a", "us-west-2b", "us-west-2b"] := by
  show [(createSubnetAndGetID "10.0.1.0/24" 0 false).availabilityZone,
        (createSubnetAndGetID "10.0.2.0/24" 1 false).availabilityZone,
        (createSubnetAndGetID "10.0.3.0/24" 2 false).availabilityZone] = _
  rw [availabilityZone_eq, availabilityZone_eq, availabilityZone_eq]
  decide

/-- The availability zones of the public subnets, in index order: only
index 0 satisfies the real-division test. -/
lemma publicSubnets_az :
    publicSubnets.map SubnetArgs.availabilityZone =
      ["us-west-2a", "us-west-2b", "us-west-2b"] := by
  show [(createSubnetAndGetID "10.0.101.0/24" 0 true).availabilityZone,
        (createSubnetAndGetID "10.0.102.0/24" 1 true).availabilityZone,
        (createSubnetAndGetID "10.0.103.0/24" 2 true).availabilityZone] = _
  rw [availabilityZone_eq, availabilityZone_eq, availabilityZone_eq]
  decide

/-- C1 counterexample: at index 1 the selector `index / 2 == 0` is false
(JavaScript `/` is real division, and `1 / 2 = 0.5`), so the subnet at
index 1 receives `us-west-2b`, not `us-west-2a` as the claim states. -/
theorem C1_az_pairing_counterexample :
    ¬ ((1 : ℚ) / 2 = 0) ∧
    (createSubnetAndGetID "10.0.2.0/24" 1 false).availabilityZone = "us-west-2b" ∧
    ¬ (createSubnetAndGetID "10.0.2.0/24" 1 false).availabilityZone = "us-west-2a" := by
  refine ⟨by norm_num, ?_, ?_⟩
  · rw [availabilityZone_eq]
    decide
  · rw [availabilityZone_eq]
    decide

/-- C1 amended: the selector `index / 2 == 0` uses real division, so it
is true only at index 0; consequently, in each of the private and public
subnet lists the subnet at index 0 is assigned `us-west-2a` and the
subnets at indices 1 and 2 are assigned `us-west-2b`. -/
theorem C1_az_selector_amended :
    (∀ i : ℕ, ((i : ℚ) / 2 = 0) ↔ i = 0) ∧
    privateSubnets.map SubnetArgs.availabilityZone =
      ["us-west-2a", "us-west-2b", "us-west-2b"] ∧
    publicSubnets.map SubnetArgs.availabilityZone =
      ["us-west-2a", "us-west-2b", "us-west-2b"] :=
  ⟨cast_div_two_eq_zero_iff, privateSubnets_az, publicSubnets_az⟩

/-- C2: the script validates nothing: for every configuration — including
one whose resolved sizes violate `min ≤ desired ≤ max` — the full list of
fifteen resource declarations is produced (no error path exists) and the
three sizing constants flow unchanged into the node group's
`scalingConfig`. -/
theorem C2_no_size_validation (config : PulumiConfig) :
    (resources config).length = 15 ∧
    (workerNodeGroup config).scalingConfig.minSize = minClusterSize config ∧
    (workerNodeGroup config).scalingConfig.desiredSize = desiredClusterSize config ∧
    (workerNodeGroup config).scalingConfig.maxSize = maxClusterSize config :=
  ⟨by simp [resources, privateSubnets, publicSubnets, privateSubnetCidrBlock, publicSubnetCidrBlock], rfl, rfl, rfl⟩

/-- C3: for every resolved cluster name, endpoint and certificate
authority, the generated kubeconfig has exactly one cluster entry,
exactly one context entry, and `current-context` equal to that single
context's name, `aws`. -/
theorem C3_kubeconfig_single_entries (n e ca : String) :
    (generateKubeconfig n e ca).clusters.length = 1 ∧
    (generateKubeconfig n e ca).contexts.length = 1 ∧
    (generateKubeconfig n e ca).contexts.head?.map KubeContextEntry.name =
      some (generateKubeconfig n e ca).currentContext ∧
    (generateKubeconfig n e ca).currentContext = "aws" :=
  ⟨rfl, rfl, rfl, rfl⟩

/-- C4 counterexample: the six subnet ranges are fixed `10.0.x.0/24`
literals, so they are not contained in every configured parent range:
with `vpcNetworkCidr` configured as `192.168.0.0/16`, the first private
range lies outside it. -/
theorem C4_containment_counterexample :
    "10.0.1.0/24" ∈ privateSubnetCidrBlock ∧
    vpcNetworkCidr cfgOtherVpc = "192.168.0.0/16" ∧
    cidrStringSubset "10.0.1.0/24" (vpcNetworkCidr cfgOtherVpc) = false := by
  decide

/-- C4 amended: the six subnet ranges are pairwise disjoint, and when the
`vpcNetworkCidr` key is absent (so the default `10.0.0.0/16` is used) all
six are contained in the resolved parent range; containment does not hold
for every configured value. -/
theorem C4_disjoint_and_default_containment (config : PulumiConfig)
    (h : config.vpcNetworkCidr = none) :
    (privateSubnetCidrBlock ++ publicSubnetCidrBlock).Pairwise
      (fun a b => cidrStringsDisjoint a b = true) ∧
    ∀ s ∈ privateSubnetCidrBlock ++ publicSubnetCidrBlock,
      cidrStringSubset s (vpcNetworkCidr config) = true := by
  have hv : vpcNetworkCidr config = "10.0.0.0/16" := by
    rw [vpcNetworkCidr, h]
    rfl
  rw [hv]
  constructor
  · decide
  · decide

/-- C4 witness: the amended containment applied to the all-keys-absent
configuration. -/
theorem C4_disjoint_and_default_containment_witness :
    cidrStringSubset "10.0.1.0/24" (vpcNetworkCidr cfgDefault) = true :=
  (C4_disjoint_and_default_containment cfgDefault rfl).2 "10.0.1.0/24" (by decide)

/-- C5 counterexample: the script declares four role-policy attachments
(one on the cluster role and three on the worker role), not three as the
claim states. -/
theorem C5_attachment_count_counterexample :
    (resources cfgDefault).countP Resource.isAttachment = 4 ∧
    ¬ (resources cfgDefault).countP Resource.isAttachment = 3 := by
  decide

/-- C5 amended: for every configuration the script declares exactly one
VPC, six subnets (three private with `mapPublicIpOnLaunch` false, three
public with it true), two IAM roles, four role-policy attachments (one on
the cluster role, three on the worker role), one managed cluster and one
worker node group — fifteen resources in all. -/
theorem C5_resource_inventory (config : PulumiConfig) :
    (resources config).countP Resource.isVpc = 1 ∧
    (resources config).countP Resource.isSubnet = 6 ∧
    (resources config).countP (Resource.isSubnetWithPublicIp false) = 3 ∧
    (resources config).countP (Resource.isSubnetWithPublicIp true) = 3 ∧
    (resources config).countP Resource.isRole = 2 ∧
    (resources config).countP Resource.isAttachment = 4 ∧
    (resources config).countP (Resource.isAttachmentOn "eks-cluster-role") = 1 ∧
    (resources config).countP (Resource.isAttachmentOn "worker-node-role") = 3 ∧
    (resources config).countP Resource.isCluster = 1 ∧
    (resources config).countP Resource.isNodeGroup = 1 ∧
    (resources config).length = 15 :=
  ⟨rfl, rfl, rfl, rfl, rfl, rfl, rfl, rfl, rfl, rfl, by simp [resources, privateSubnets, publicSubnets, privateSubnetCidrBlock, publicSubnetCidrBlock]⟩

/-- C6: whenever a configuration key is absent, the corresponding default
is used: 3, 6, 3, `t3.medium`, `10.0.0.0/16`. -/
theorem C6_config_defaults (config : PulumiConfig) :
    (config.minClusterSize = none → minClusterSize config = 3) ∧
    (config.maxClusterSize = none → maxClusterSize config = 6) ∧
    (config.desiredClusterSize = none → desiredClusterSize config = 3) ∧
    (config.eksNodeInstanceType = none → eksNodeInstanceType config = "t3.medium") ∧
    (config.vpcNetworkCidr = none → vpcNetworkCidr config = "10.0.0.0/16") := by
  refine ⟨fun h => ?_, fun h => ?_, fun h => ?_, fun h => ?_, fun h => ?_⟩
  · rw [minClusterSize, h]
    rfl
  · rw [maxClusterSize, h]
    rfl
  · rw [desiredClusterSize, h]
    rfl
  · rw [eksNodeInstanceType, h]
    rfl
  · rw [vpcNetworkCidr, h]
    rfl

/-- C6 witness: all five defaults realized on the all-keys-absent
configuration. -/
theorem C6_config_defaults_witness :
    minClusterSize cfgDefault = 3 ∧
    maxClusterSize cfgDefault = 6 ∧
    desiredClusterSize cfgDefault = 3 ∧
    eksNodeInstanceType cfgDefault = "t3.medium" ∧
    vpcNetworkCidr cfgDefault = "10.0.0.0/16" :=
  ⟨(C6_config_defaults cfgDefault).1 rfl,
   (C6_config_defaults cfgDefault).2.1 rfl,
   (C6_config_defaults cfgDefault).2.2.1 rfl,
   (C6_config_defaults cfgDefault).2.2.2.1 rfl,
   (C6_config_defaults cfgDefault).2.2.2.2 rfl⟩

/-- C7: the module exports exactly the four values `clusterName`,
`clusterArn`, `clusterKubeConfig` and `vpcId`; the kubeconfig's single
user entry invokes the exec-based `aws eks get-token` credential plugin
with the cluster name as final argument, and its single cluster entry
carries the server endpoint and certificate-authority data. -/
theorem C7_module_exports (n e ca : String) :
    exportNames = ["clusterName", "clusterArn", "clusterKubeConfig", "vpcId"] ∧
    exportNames.length = 4 ∧
    moduleExports.clusterName = Ref.output "eks-cluster" "name" ∧
    moduleExports.clusterArn = Ref.output "eks-cluster" "arn" ∧
    moduleExports.vpcId = Ref.output "eks-vpc" "id" ∧
    moduleExports.clusterKubeConfig = generateKubeconfig ∧
    (generateKubeconfig n e ca).users =
      [ { name := "aws"
        , exec :=
            { apiVersion := "client.authentication.k8s.io/v1alpha1"
            , command := "aws"
            , args := ["eks", "get-token", "--cluster-name", n] } } ] ∧
    (generateKubeconfig n e ca).clusters =
      [ { server := e, certificateAuthorityData := ca, name := "kubernetes" } ] :=
  ⟨rfl, rfl, rfl, rfl, rfl, rfl, rfl, rfl⟩

/-- C8: JavaScript `/` is real division, so `index / 2 == 0` holds only
at index 0: for any nonzero index the subnet is assigned `us-west-2b`,
and in each of the private and public subnet lists only the subnet at
index 0 is assigned `us-west-2a`. -/
theorem C8_real_division_az (cidr : String) (pub : Bool) (i : ℕ) (h : i ≠ 0) :
    ¬ ((i : ℚ) / 2 = 0) ∧
    (createSubnetAndGetID cidr i pub).availabilityZone = "us-west-2b" ∧
    (createSubnetAndGetID cidr 0 pub).availabilityZone = "us-west-2a" ∧
    privateSubnets.map SubnetArgs.availabilityZone =
      ["us-west-2a", "us-west-2b", "us-west-2b"] ∧
    publicSubnets.map SubnetArgs.availabilityZone =
      ["us-west-2a", "us-west-2b", "us-west-2b"] := by
  refine ⟨?_, ?_, ?_, privateSubnets_az, publicSubnets_az⟩
  · rw [cast_div_two_eq_zero_iff]
    exact h
  · rw [availabilityZone_eq, if_neg h]
  · rw [availabilityZone_eq]
    decide

/-- C8 witness: the real-division zone assignment at index 1 of the
public list. -/
theorem C8_real_division_az_witness :
    ¬ ((1 : ℚ) / 2 = 0) ∧
    (createSubnetAndGetID "10.0.102.0/24" 1 true).availabilityZone = "us-west-2b" :=
  ⟨(C8_real_division_az "10.0.102.0/24" true 1 (by decide)).1,
   (C8_real_division_az "10.0.102.0/24" true 1 (by decide)).2.1⟩

/-- C9: `||`-defaulting replaces falsy configured values: a configured
`0` for any of the three sizes yields its default, and a configured empty
string for the instance type or network range yields its default. -/
theorem C9_falsy_values_replaced (config : PulumiConfig) :
    (config.minClusterSize = some 0 → minClusterSize config = 3) ∧
    (config.maxClusterSize = some 0 → maxClusterSize config = 6) ∧
    (config.desiredClusterSize = some 0 → desiredClusterSize config = 3) ∧
    (config.eksNodeInstanceType = some "" → eksNodeInstanceType config = "t3.medium") ∧
    (config.vpcNetworkCidr = some "" → vpcNetworkCidr config = "10.0.0.0/16") := by
  refine ⟨fun h => ?_, fun h => ?_, fun h => ?_, fun h => ?_, fun h => ?_⟩
  · rw [minClusterSize, h]
    rfl
  · rw [maxClusterSize, h]
    rfl
  · rw [desiredClusterSize, h]
    rfl
  · rw [eksNodeInstanceType, h]
    rfl
  · rw [vpcNetworkCidr, h]
    rfl

/-- C9 witness: all five falsy replacements realized on the all-falsy
configuration. -/
theorem C9_falsy_values_replaced_witness :
    minClusterSize cfgFalsy = 3 ∧
    maxClusterSize cfgFalsy = 6 ∧
    desiredClusterSize cfgFalsy = 3 ∧
    eksNodeInstanceType cfgFalsy = "t3.medium" ∧
    vpcNetworkCidr cfgFalsy = "10.0.0.0/16" :=
  ⟨(C9_falsy_values_replaced cfgFalsy).1 rfl,
   (C9_falsy_values_replaced cfgFalsy).2.1 rfl,
   (C9_falsy_values_replaced cfgFalsy).2.2.1 rfl,
   (C9_falsy_values_replaced cfgFalsy).2.2.2.1 rfl,
   (C9_falsy_values_replaced cfgFalsy).2.2.2.2 rfl⟩

/-- C10: the cluster's `vpcConfig.subnetIds` and the node group's
`subnetIds` are the identical list: the three private subnet ids in
declaration order followed by the three public subnet ids in declaration
order. -/
theorem C10_subnet_ids_shared (config : PulumiConfig) :
    eksCluster.subnetIds = (workerNodeGroup config).subnetIds ∧
    eksCluster.subnetIds = privateSubnet ++ publicSubnet ∧
    eksCluster.subnetIds =
      [ Ref.output "private-subnet-0" "id"
      , Ref.output "private-subnet-1" "id"
      , Ref.output "private-subnet-2" "id"
      , Ref.output "public-subnet-0" "id"
      , Ref.output "public-subnet-1" "id"
      , Ref.output "public-subnet-2" "id" ] :=
  ⟨rfl, rfl, by decide⟩
